import Mathlib

/-!
# Sharding initialization (`src/mongo/s/sharding_initialization.cpp`)

A shallow embedding of the bootstrap code of the routing tier:

* the connection-pool options built from the startup parameters and their
  self-correction pass (`initializeGlobalShardingState`, lines 201-235);
* `makeShardingTaskExecutor` / `makeShardingTaskExecutorPool`;
* `generateDistLockProcessId`;
* the ordered bootstrap sequence of `initializeGlobalShardingState`;
* the retry loop of `waitForShardRegistryReload`.

Collaborators that live outside this file (transports, the grid, the shard
registry, the catalog client, the key manager, the clock, the random source,
the interrupt check) are modelled at their call boundary: every call is
recorded, in program order, in an explicit log that is threaded through the
functions, and every value they hand back is an input of the model.
-/

namespace mongo

/-! ## Status -/

/-- The error codes this file produces or can be handed by the interrupt check
and the cluster-identity loader. -/
inductive ErrorCodes where
  | OK
  | BadValue
  | HostUnreachable
  | ExceededTimeLimit
  | ShutdownInProgress
  | InterruptedAtShutdown
  | Interrupted
  deriving DecidableEq, Repr

/-- A `Status`: an error code and a reason string. -/
structure Status where
  code : ErrorCodes
  reason : String
  deriving DecidableEq, Repr

/-- The value `Status::OK()`. -/
def Status.OK : Status := ⟨ErrorCodes.OK, ""⟩

/-- The test `Status::isOK()`. -/
def Status.isOK (s : Status) : Bool := decide (s.code = ErrorCodes.OK)

/-! ## Connection-pool options and their self-correction -/

/-- The six startup parameters exported at lines 80-100; each is a C++ `int`. -/
structure ServerParameters where
  ShardingTaskExecutorPoolHostTimeoutMS : Int
  ShardingTaskExecutorPoolMaxSize : Int
  ShardingTaskExecutorPoolMaxConnecting : Int
  ShardingTaskExecutorPoolMinSize : Int
  ShardingTaskExecutorPoolRefreshRequirementMS : Int
  ShardingTaskExecutorPoolRefreshTimeoutMS : Int
  deriving DecidableEq, Repr

/-- The value range of a C++ `int` (32 bits, two's complement). -/
def isInt32 (x : Int) : Prop := -2147483648 ≤ x ∧ x ≤ 2147483647

/-- The value range of the 64-bit representation of `Milliseconds`. -/
def isInt64 (x : Int) : Prop := -9223372036854775808 ≤ x ∧ x ≤ 9223372036854775807

/-- All six startup parameters hold a C++ `int`. -/
def ServerParameters.wellFormed (p : ServerParameters) : Prop :=
  isInt32 p.ShardingTaskExecutorPoolHostTimeoutMS ∧
  isInt32 p.ShardingTaskExecutorPoolMaxSize ∧
  isInt32 p.ShardingTaskExecutorPoolMaxConnecting ∧
  isInt32 p.ShardingTaskExecutorPoolMinSize ∧
  isInt32 p.ShardingTaskExecutorPoolRefreshRequirementMS ∧
  isInt32 p.ShardingTaskExecutorPoolRefreshTimeoutMS

/-- The defaults `ConnectionPool::kDefaultMaxConns` and
`ConnectionPool::kDefaultMaxConnecting`, declared in `connection_pool.h`;
they are inputs here. -/
structure ConnectionPoolDefaults where
  kDefaultMaxConns : Nat
  kDefaultMaxConnecting : Nat
  deriving DecidableEq, Repr

/-- The type `ConnectionPool::Options`: three counts (`size_t`) and three durations in
milliseconds. -/
structure ConnectionPoolOptions where
  minConnections : Nat
  maxConnections : Nat
  maxConnecting : Nat
  refreshTimeout : Int
  refreshRequirement : Int
  hostTimeout : Int
  deriving DecidableEq, Repr

/-- Conversion of a C++ `int` to `size_t` (64 bits): the value modulo `2^64`. -/
def intToSizeT (x : Int) : Nat := (x % 18446744073709551616).toNat

/-- Lines 201-211: the options as first filled in from the startup parameters. -/
def rawConnPoolOptions (d : ConnectionPoolDefaults) (p : ServerParameters) :
    ConnectionPoolOptions :=
  { hostTimeout := p.ShardingTaskExecutorPoolHostTimeoutMS
    maxConnections :=
      if p.ShardingTaskExecutorPoolMaxSize ≠ -1 then
        intToSizeT p.ShardingTaskExecutorPoolMaxSize
      else d.kDefaultMaxConns
    maxConnecting :=
      if p.ShardingTaskExecutorPoolMaxConnecting ≠ -1 then
        intToSizeT p.ShardingTaskExecutorPoolMaxConnecting
      else d.kDefaultMaxConnecting
    minConnections := intToSizeT p.ShardingTaskExecutorPoolMinSize
    refreshRequirement := p.ShardingTaskExecutorPoolRefreshRequirementMS
    refreshTimeout := p.ShardingTaskExecutorPoolRefreshTimeoutMS }

/-- Lines 213-222: the first correction, of `refreshTimeout`. -/
def correctRefreshTimeout (connPoolOptions : ConnectionPoolOptions) :
    ConnectionPoolOptions :=
  if connPoolOptions.refreshRequirement ≤ connPoolOptions.refreshTimeout then
    let newRefreshTimeout := connPoolOptions.refreshRequirement - 1
    { connPoolOptions with refreshTimeout := newRefreshTimeout }
  else connPoolOptions

/-- Lines 224-235: the second correction, of `hostTimeout`. -/
def correctHostTimeout (connPoolOptions : ConnectionPoolOptions) :
    ConnectionPoolOptions :=
  if connPoolOptions.hostTimeout ≤
      connPoolOptions.refreshRequirement + connPoolOptions.refreshTimeout then
    let newHostTimeout :=
      connPoolOptions.refreshRequirement + connPoolOptions.refreshTimeout + 1
    { connPoolOptions with hostTimeout := newHostTimeout }
  else connPoolOptions

/-- Lines 213-235: the self-correction pass, the two corrections in program
order. -/
def selfCorrect (connPoolOptions : ConnectionPoolOptions) : ConnectionPoolOptions :=
  correctHostTimeout (correctRefreshTimeout connPoolOptions)

/-- Lines 201-235: the options every transport is configured with. -/
def validatedConnPoolOptions (d : ConnectionPoolDefaults) (p : ServerParameters) :
    ConnectionPoolOptions :=
  selfCorrect (rawConnPoolOptions d p)

/-! ## Transports, executors and the executor pool -/

/-- An egress metadata hook as handed out by the caller-supplied
`ShardingEgressMetadataHookBuilder`: each invocation of the builder yields a
fresh hook, identified by the ordinal of the invocation. -/
structure EgressMetadataHook where
  serial : Nat
  deriving DecidableEq, Repr

/-- A transport as built by `executor::makeNetworkInterface(instanceName,
connectionHook, metadataHook, connPoolOptions)`; the connection hook is
always a new `ShardingNetworkConnectionHook` and carries no data. -/
structure NetworkInterface where
  instanceName : String
  metadataHook : EgressMetadataHook
  connPoolOptions : ConnectionPoolOptions
  deriving DecidableEq, Repr

/-- A `ShardingTaskExecutor` around a `ThreadPoolTaskExecutor`: the transport
its `NetworkInterfaceThreadPool` drives (`netPtr`) and the transport it owns
(`net`). -/
structure TaskExecutor where
  threadPoolNet : NetworkInterface
  net : NetworkInterface
  deriving DecidableEq, Repr

/-- The `TaskExecutorPool`: the parallel executors and the fixed executor it
was handed through `addExecutors`. -/
structure TaskExecutorPool where
  executors : List TaskExecutor
  fixedExecutor : Option TaskExecutor
  deriving DecidableEq, Repr

/-- The enumeration `ConnectionString::ConnectionType`. -/
inductive ConnectionType where
  | INVALID
  | MASTER
  | SET
  | CUSTOM
  | LOCAL
  deriving DecidableEq, Repr

/-- A parsed connection string: its topology type and its text. -/
structure ConnectionString where
  type : ConnectionType
  text : String
  deriving DecidableEq, Repr

/-- The calls into collaborators that the functions of this file make, with
the arguments that matter; a run records them in program order. -/
inductive Call where
  | hookBuilder (serial : Nat)
  | makeNetworkInterface (net : NetworkInterface)
  | addExecutors (executors : List TaskExecutor) (fixedExecutor : TaskExecutor)
  | executorPoolStartup
  | gridInit (distLockProcessId : String) (configCS : ConnectionString)
      (executorPool : TaskExecutorPool) (network : NetworkInterface)
  | shardRegistryStartup
  | catalogClientStartup
  | keyManagerCreate
  | keyManagerStartMonitoring
  | logicalTimeValidatorSet
  | enableKeyGenerator
  deriving DecidableEq, Repr

/-- The part of the process state the calls act on: the chronological record
of calls made so far and the number of hooks the hook builder has built. -/
structure World where
  calls : List Call
  hooksBuilt : Nat
  deriving DecidableEq, Repr

/-- Append one call to the record. -/
def World.record (w : World) (c : Call) : World :=
  { w with calls := w.calls ++ [c] }

/-- One invocation of the metadata-hook builder. -/
def hookBuilder (w : World) : EgressMetadataHook × World :=
  (⟨w.hooksBuilt⟩,
    { calls := w.calls ++ [Call.hookBuilder w.hooksBuilt], hooksBuilt := w.hooksBuilt + 1 })

/-- One call of `executor::makeNetworkInterface`. -/
def makeNetworkInterface (instanceName : String) (metadataHook : EgressMetadataHook)
    (connPoolOptions : ConnectionPoolOptions) (w : World) : NetworkInterface × World :=
  let net : NetworkInterface := ⟨instanceName, metadataHook, connPoolOptions⟩
  (net, w.record (Call.makeNetworkInterface net))

/-- Lines 166-174: `makeShardingTaskExecutor(net)`; the thread pool adapter is
built over `net.get()` and the executor takes ownership of `net`. -/
def makeShardingTaskExecutor (net : NetworkInterface) : TaskExecutor :=
  let netPtr := net
  { threadPoolNet := netPtr, net := net }

/-- Lines 144-150: the body of the loop for index `i`. -/
def poolLoopBody (connPoolOptions : ConnectionPoolOptions) (i : Nat)
    (st : List TaskExecutor × World) : List TaskExecutor × World :=
  let (hook, w1) := hookBuilder st.2
  let (net, w2) :=
    makeNetworkInterface ("NetworkInterfaceASIO-TaskExecutorPool-yang-" ++ toString i)
      hook connPoolOptions w1
  let exec := makeShardingTaskExecutor net
  (st.1 ++ [exec], w2)

/-- Lines 139-151: `for (size_t i = 0; i < poolSize; ++i)`, from index `i`;
`fuel` bounds the number of iterations and is `poolSize` at the call. -/
def poolLoop (connPoolOptions : ConnectionPoolOptions) (poolSize : Nat) :
    Nat → Nat → List TaskExecutor × World → List TaskExecutor × World
  | 0, _, st => st
  | fuel + 1, i, st =>
    if i < poolSize then
      poolLoop connPoolOptions poolSize fuel (i + 1) (poolLoopBody connPoolOptions i st)
    else st

/-- Lines 129-161: `makeShardingTaskExecutorPool`. `suggestedPoolSize` is the
value of `TaskExecutorPool::getSuggestedPoolSize()`. -/
def makeShardingTaskExecutorPool (fixedNet : NetworkInterface)
    (connPoolOptions : ConnectionPoolOptions) (taskExecutorPoolSize : Option Nat)
    (suggestedPoolSize : Nat) (w : World) : TaskExecutorPool × World :=
  let poolSize := taskExecutorPoolSize.getD suggestedPoolSize
  let (executors, w1) := poolLoop connPoolOptions poolSize poolSize 0 ([], w)
  let fixedExec := makeShardingTaskExecutor fixedNet
  let executorPool : TaskExecutorPool :=
    { executors := executors, fixedExecutor := some fixedExec }
  (executorPool, w1.record (Call.addExecutors executors fixedExec))

/-! ## The distributed-lock process id -/

/-- Decimal text of a signed integer, as the string stream prints it. -/
def decimal (x : Int) : String :=
  if x < 0 then "-" ++ Nat.repr (-x).toNat else Nat.repr x.toNat

/-- The value `durationCount<Seconds>` of a duration in milliseconds: the quotient by
1000, truncated toward zero. -/
def durationCountSeconds (millis : Int) : Int := Int.tdiv millis 1000

/-- Lines 176-184: `generateDistLockProcessId`. `hostAndPortToString host port`
is `HostAndPort(host, port).toString()`, `nowMillis` the reading of the precise
clock as milliseconds since the epoch, `nextInt64` the draw of the random
source. -/
def generateDistLockProcessId (hostAndPortToString : String → Int → String)
    (hostName : String) (port : Int) (nowMillis : Int) (nextInt64 : Int) : String :=
  hostAndPortToString hostName port ++ ":" ++ decimal (durationCountSeconds nowMillis)
    ++ ":" ++ decimal nextInt64

/-! ## The bootstrap sequence -/

/-- The values of `serverGlobalParams.clusterRole`. -/
inductive ClusterRole where
  | None
  | ShardServer
  | ConfigServer
  deriving DecidableEq, Repr

/-- What `initializeGlobalShardingState` reads from the process: the startup
parameters, the connection-pool defaults, the suggested pool size, the cluster
role and whether the replication coordinator reports this member primary. -/
structure ProcessState where
  params : ServerParameters
  defaults : ConnectionPoolDefaults
  suggestedPoolSize : Nat
  clusterRole : ClusterRole
  memberStatePrimary : Bool
  deriving DecidableEq, Repr

/-- Lines 187-282: `initializeGlobalShardingState`. The objects built as
arguments of `Grid::init` (catalog client, shard registry, cursor manager,
balancer configuration) are part of the `gridInit` record; collaborators are
taken to return normally. -/
def initializeGlobalShardingState (ps : ProcessState) (configCS : ConnectionString)
    (distLockProcessId : String) (taskExecutorPoolSize : Option Nat) (w : World) :
    Status × World :=
  if configCS.type = ConnectionType.INVALID then
    (⟨ErrorCodes.BadValue, "Unrecognized connection string."⟩, w)
  else
    let connPoolOptions := validatedConnPoolOptions ps.defaults ps.params
    let (hook, w1) := hookBuilder w
    let (network, w2) :=
      makeNetworkInterface "NetworkInterfaceASIO-ShardRegistry" hook connPoolOptions w1
    let networkPtr := network
    let (executorPool, w3) :=
      makeShardingTaskExecutorPool network connPoolOptions taskExecutorPoolSize
        ps.suggestedPoolSize w2
    let w4 := w3.record Call.executorPoolStartup
    let w5 := w4.record (Call.gridInit distLockProcessId configCS executorPool networkPtr)
    let w6 := w5.record Call.shardRegistryStartup
    let w7 := w6.record Call.catalogClientStartup
    let w8 := w7.record Call.keyManagerCreate
    let w9 := w8.record Call.keyManagerStartMonitoring
    let w10 := w9.record Call.logicalTimeValidatorSet
    let w11 :=
      if ps.clusterRole = ClusterRole.ConfigServer ∧ ps.memberStatePrimary = true then
        w10.record Call.enableKeyGenerator
      else w10
    (Status.OK, w11)

/-! ## Waiting for the shard registry -/

/-- Line 109: `kRetryInterval`, in seconds. -/
def kRetryInterval : Nat := 2

/-- What the collaborators answer during one iteration of the loop of
`waitForShardRegistryReload`, each read at the point the code asks for it. -/
structure Poll where
  globalInShutdown : Bool
  checkForInterrupt : Status
  loadClusterId : Status
  shardRegistryIsUp : Bool
  deriving DecidableEq, Repr

/-- The effects of the loop of `waitForShardRegistryReload`. -/
inductive WaitEvent where
  | loadClusterId
  | isUp
  | warning (cause : Status)
  | sleepFor (seconds : Nat)
  deriving DecidableEq, Repr

/-- Line 313: the status returned when the loop is left on shutdown. -/
def shutdownInProgress : Status :=
  ⟨ErrorCodes.ShutdownInProgress, "aborting shard loading attempt"⟩

/-- Lines 289-313: the loop, entered at iteration `i` with the effects `log`
made so far; `polls i` is what the collaborators answer in iteration `i`.
The loop has no bound of its own: `fuel` bounds the number of iterations run,
and `none` means the bound was reached before the loop returned. -/
def waitLoop (polls : Nat → Poll) : Nat → Nat → List WaitEvent →
    Option (Status × List WaitEvent)
  | 0, _, _ => none
  | fuel + 1, i, log =>
    if (polls i).globalInShutdown then some (shutdownInProgress, log)
    else
      let stopStatus := (polls i).checkForInterrupt
      if !stopStatus.isOK then some (stopStatus, log)
      else
        let log1 := log ++ [WaitEvent.loadClusterId]
        if (polls i).loadClusterId.isOK then
          let log2 := log1 ++ [WaitEvent.isUp]
          if (polls i).shardRegistryIsUp then some (Status.OK, log2)
          else waitLoop polls fuel (i + 1) (log2 ++ [WaitEvent.sleepFor kRetryInterval])
        else
          let status := (polls i).loadClusterId
          waitLoop polls fuel (i + 1)
            (log1 ++ [WaitEvent.warning status, WaitEvent.sleepFor kRetryInterval])

/-- Lines 284-314: `waitForShardRegistryReload`. -/
def waitForShardRegistryReload (clusterRole : ClusterRole) (polls : Nat → Poll)
    (fuel : Nat) : Option (Status × List WaitEvent) :=
  if clusterRole = ClusterRole.ConfigServer then some (Status.OK, [])
  else waitLoop polls fuel 0 []

/-! ## Reading the record of calls -/

/-- The transports constructed by the calls of a record, in order. -/
def builtTransports (calls : List Call) : List NetworkInterface :=
  calls.filterMap fun c =>
    match c with
    | Call.makeNetworkInterface net => some net
    | _ => none

/-- The number of invocations of the metadata-hook builder in a record. -/
def hookInvocations (calls : List Call) : Nat :=
  (calls.filter fun c =>
    match c with
    | Call.hookBuilder _ => true
    | _ => false).length

/-- The startup stages whose relative order the bootstrap must keep. -/
inductive Stage where
  | executorPoolStartup
  | gridInit
  | shardRegistryStartup
  | catalogClientStartup
  | keyManagerCreate
  | keyManagerStartMonitoring
  deriving DecidableEq, Repr

/-- The startup stage a call belongs to, if any. -/
def Call.stage : Call → Option Stage
  | Call.executorPoolStartup => some Stage.executorPoolStartup
  | Call.gridInit _ _ _ _ => some Stage.gridInit
  | Call.shardRegistryStartup => some Stage.shardRegistryStartup
  | Call.catalogClientStartup => some Stage.catalogClientStartup
  | Call.keyManagerCreate => some Stage.keyManagerCreate
  | Call.keyManagerStartMonitoring => some Stage.keyManagerStartMonitoring
  | _ => none

/-- The transport the loop of `makeShardingTaskExecutorPool` builds for index
`i` when the hook builder had built `hooksBefore` hooks before the loop. -/
def pooledTransport (connPoolOptions : ConnectionPoolOptions) (hooksBefore i : Nat) :
    NetworkInterface :=
  { instanceName := "NetworkInterfaceASIO-TaskExecutorPool-yang-" ++ toString i
    metadataHook := ⟨hooksBefore + i⟩
    connPoolOptions := connPoolOptions }

/-- The calls the loop of `makeShardingTaskExecutorPool` makes for index `i`. -/
def pooledCalls (connPoolOptions : ConnectionPoolOptions) (hooksBefore i : Nat) :
    List Call :=
  [Call.hookBuilder (hooksBefore + i),
    Call.makeNetworkInterface (pooledTransport connPoolOptions hooksBefore i)]

/-- Whether an iteration with answers `p` neither returns nor leaves the loop:
no shutdown, no interruption, and not both a successful identity load and a
shard registry that is up. -/
def Poll.continues (p : Poll) : Bool :=
  !p.globalInShutdown && p.checkForInterrupt.isOK &&
    !(p.loadClusterId.isOK && p.shardRegistryIsUp)

/-- Whether the checks at the top of an iteration with answers `p` observe a
cancellation: the shutdown flag is set or the interrupt check is not OK. -/
def Poll.cancelled (p : Poll) : Bool :=
  p.globalInShutdown || !p.checkForInterrupt.isOK

/-- The effects of an iteration that continues: after a successful load the
`isUp` check and the sleep, after a failed one the warning and the sleep. -/
def Poll.retryEvents (p : Poll) : List WaitEvent :=
  if p.loadClusterId.isOK then
    [WaitEvent.loadClusterId, WaitEvent.isUp, WaitEvent.sleepFor kRetryInterval]
  else
    [WaitEvent.loadClusterId, WaitEvent.warning p.loadClusterId,
      WaitEvent.sleepFor kRetryInterval]

/-- The number of cluster-identity load attempts among the effects. -/
def loadAttempts (log : List WaitEvent) : Nat :=
  (log.filter fun e =>
    match e with
    | WaitEvent.loadClusterId => true
    | _ => false).length

/-- The durations, in seconds, of the sleeps among the effects, in order. -/
def sleeps (log : List WaitEvent) : List Nat :=
  log.filterMap fun e =>
    match e with
    | WaitEvent.sleepFor s => some s
    | _ => none

/-- The number a list of decimal digit characters denotes. -/
def digitsValue (cs : List Char) : Nat :=
  cs.foldl (fun acc c => 10 * acc + (c.toNat - 48)) 0

/-! ## The self-correction pass -/

theorem correctRefreshTimeout_refreshTimeout (o : ConnectionPoolOptions) :
    (correctRefreshTimeout o).refreshTimeout =
      (if o.refreshRequirement ≤ o.refreshTimeout then o.refreshRequirement - 1
       else o.refreshTimeout) := by
  unfold correctRefreshTimeout
  split <;> rfl

theorem correctRefreshTimeout_others (o : ConnectionPoolOptions) :
    (correctRefreshTimeout o).refreshRequirement = o.refreshRequirement ∧
    (correctRefreshTimeout o).hostTimeout = o.hostTimeout ∧
    (correctRefreshTimeout o).minConnections = o.minConnections ∧
    (correctRefreshTimeout o).maxConnections = o.maxConnections ∧
    (correctRefreshTimeout o).maxConnecting = o.maxConnecting := by
  unfold correctRefreshTimeout
  split <;> simp

theorem correctHostTimeout_hostTimeout (o : ConnectionPoolOptions) :
    (correctHostTimeout o).hostTimeout =
      (if o.hostTimeout ≤ o.refreshRequirement + o.refreshTimeout then
        o.refreshRequirement + o.refreshTimeout + 1
       else o.hostTimeout) := by
  unfold correctHostTimeout
  split <;> rfl

theorem correctHostTimeout_others (o : ConnectionPoolOptions) :
    (correctHostTimeout o).refreshRequirement = o.refreshRequirement ∧
    (correctHostTimeout o).refreshTimeout = o.refreshTimeout ∧
    (correctHostTimeout o).minConnections = o.minConnections ∧
    (correctHostTimeout o).maxConnections = o.maxConnections ∧
    (correctHostTimeout o).maxConnecting = o.maxConnecting := by
  unfold correctHostTimeout
  split <;> simp

/-- After the pass the refresh timeout is below the refresh requirement. -/
theorem selfCorrect_refreshTimeout_lt (o : ConnectionPoolOptions) :
    (selfCorrect o).refreshTimeout < (selfCorrect o).refreshRequirement := by
  unfold selfCorrect
  rw [(correctHostTimeout_others _).2.1, (correctHostTimeout_others _).1,
    correctRefreshTimeout_refreshTimeout, (correctRefreshTimeout_others _).1]
  split <;> omega

/-- After the pass the host timeout exceeds requirement plus timeout. -/
theorem selfCorrect_sum_lt_hostTimeout (o : ConnectionPoolOptions) :
    (selfCorrect o).refreshRequirement + (selfCorrect o).refreshTimeout <
      (selfCorrect o).hostTimeout := by
  unfold selfCorrect
  rw [(correctHostTimeout_others _).2.1, (correctHostTimeout_others _).1,
    correctHostTimeout_hostTimeout]
  split <;> omega

/-- The pass leaves options that already satisfy both orderings untouched. -/
theorem selfCorrect_of_ordered (o : ConnectionPoolOptions)
    (h1 : o.refreshTimeout < o.refreshRequirement)
    (h2 : o.refreshRequirement + o.refreshTimeout < o.hostTimeout) :
    selfCorrect o = o := by
  have e1 : correctRefreshTimeout o = o := by
    unfold correctRefreshTimeout
    rw [if_neg (by omega)]
  unfold selfCorrect
  rw [e1]
  unfold correctHostTimeout
  rw [if_neg (by omega)]

theorem rawConnPoolOptions_durations (d : ConnectionPoolDefaults) (p : ServerParameters) :
    (rawConnPoolOptions d p).hostTimeout = p.ShardingTaskExecutorPoolHostTimeoutMS ∧
    (rawConnPoolOptions d p).refreshRequirement =
      p.ShardingTaskExecutorPoolRefreshRequirementMS ∧
    (rawConnPoolOptions d p).refreshTimeout = p.ShardingTaskExecutorPoolRefreshTimeoutMS :=
  ⟨rfl, rfl, rfl⟩

/-- With 32-bit startup parameters no value the pass computes leaves the
64-bit range of `Milliseconds`, so the arithmetic of the pass is exact. -/
theorem selfCorrect_fits_int64 (d : ConnectionPoolDefaults) (p : ServerParameters)
    (hp : p.wellFormed) :
    isInt64 (p.ShardingTaskExecutorPoolRefreshRequirementMS - 1) ∧
    isInt64 (validatedConnPoolOptions d p).refreshTimeout ∧
    isInt64 ((validatedConnPoolOptions d p).refreshRequirement +
      (validatedConnPoolOptions d p).refreshTimeout) ∧
    isInt64 ((validatedConnPoolOptions d p).refreshRequirement +
      (validatedConnPoolOptions d p).refreshTimeout + 1) ∧
    isInt64 (validatedConnPoolOptions d p).hostTimeout := by
  obtain ⟨hh, -, -, -, hr, ht⟩ := hp
  unfold isInt32 at hh hr ht
  unfold validatedConnPoolOptions selfCorrect
  simp only [(correctHostTimeout_others _).2.1, (correctHostTimeout_others _).1,
    correctHostTimeout_hostTimeout, correctRefreshTimeout_refreshTimeout,
    (correctRefreshTimeout_others _).1, (correctRefreshTimeout_others _).2.1,
    (rawConnPoolOptions_durations d p).1, (rawConnPoolOptions_durations d p).2.1,
    (rawConnPoolOptions_durations d p).2.2]
  unfold isInt64
  split <;> split <;> omega

/-- The three durations after the pass, in closed form. -/
theorem validatedConnPoolOptions_durations (d : ConnectionPoolDefaults)
    (p : ServerParameters) :
    (validatedConnPoolOptions d p).refreshTimeout =
      (if p.ShardingTaskExecutorPoolRefreshRequirementMS ≤
          p.ShardingTaskExecutorPoolRefreshTimeoutMS
       then p.ShardingTaskExecutorPoolRefreshRequirementMS - 1
       else p.ShardingTaskExecutorPoolRefreshTimeoutMS) ∧
    (validatedConnPoolOptions d p).hostTimeout =
      (if p.ShardingTaskExecutorPoolHostTimeoutMS ≤
          p.ShardingTaskExecutorPoolRefreshRequirementMS +
            (validatedConnPoolOptions d p).refreshTimeout
       then p.ShardingTaskExecutorPoolRefreshRequirementMS +
            (validatedConnPoolOptions d p).refreshTimeout + 1
       else p.ShardingTaskExecutorPoolHostTimeoutMS) ∧
    (validatedConnPoolOptions d p).refreshRequirement =
      p.ShardingTaskExecutorPoolRefreshRequirementMS := by
  unfold validatedConnPoolOptions selfCorrect
  simp only [(correctHostTimeout_others _).2.1, (correctHostTimeout_others _).1,
    correctHostTimeout_hostTimeout, correctRefreshTimeout_refreshTimeout,
    (correctRefreshTimeout_others _).1, (correctRefreshTimeout_others _).2.1,
    (rawConnPoolOptions_durations d p).1, (rawConnPoolOptions_durations d p).2.1,
    (rawConnPoolOptions_durations d p).2.2]
  exact ⟨trivial, trivial, trivial⟩

/-- C2. For every input `(h, r, t)` the pass yields exactly:
`refreshTimeout' = r - 1` if `r ≤ t`, else `t`; then
`hostTimeout' = r + refreshTimeout' + 1` if `h ≤ r + refreshTimeout'`, else `h`,
the test and the sum using the corrected `refreshTimeout'`, not the raw `t`;
`refreshRequirement` stays `r`. -/
theorem selfCorrect_exact (d : ConnectionPoolDefaults) (p : ServerParameters) :
    (validatedConnPoolOptions d p).refreshTimeout =
      (if p.ShardingTaskExecutorPoolRefreshRequirementMS ≤
          p.ShardingTaskExecutorPoolRefreshTimeoutMS
       then p.ShardingTaskExecutorPoolRefreshRequirementMS - 1
       else p.ShardingTaskExecutorPoolRefreshTimeoutMS) ∧
    (validatedConnPoolOptions d p).hostTimeout =
      (if p.ShardingTaskExecutorPoolHostTimeoutMS ≤
          p.ShardingTaskExecutorPoolRefreshRequirementMS +
            (if p.ShardingTaskExecutorPoolRefreshRequirementMS ≤
                p.ShardingTaskExecutorPoolRefreshTimeoutMS
             then p.ShardingTaskExecutorPoolRefreshRequirementMS - 1
             else p.ShardingTaskExecutorPoolRefreshTimeoutMS)
       then p.ShardingTaskExecutorPoolRefreshRequirementMS +
            (if p.ShardingTaskExecutorPoolRefreshRequirementMS ≤
                p.ShardingTaskExecutorPoolRefreshTimeoutMS
             then p.ShardingTaskExecutorPoolRefreshRequirementMS - 1
             else p.ShardingTaskExecutorPoolRefreshTimeoutMS) + 1
       else p.ShardingTaskExecutorPoolHostTimeoutMS) ∧
    (validatedConnPoolOptions d p).refreshRequirement =
      p.ShardingTaskExecutorPoolRefreshRequirementMS := by
  obtain ⟨e1, e2, e3⟩ := validatedConnPoolOptions_durations d p
  rw [e1] at e2
  exact ⟨e1, e2, e3⟩

/-- C1, as amended. For every input the pass leaves
`refreshTimeout' < refreshRequirement`, and `refreshRequirement < hostTimeout'`
holds exactly when the corrected `refreshTimeout'` is non-negative or the raw
host timeout already exceeded the refresh requirement; in particular the whole
chain `refreshTimeout' < refreshRequirement < hostTimeout'` holds whenever the
raw refresh requirement is at least 1 ms and the raw refresh timeout is not
negative. -/
theorem selfCorrect_chain_iff (d : ConnectionPoolDefaults) (p : ServerParameters) :
    (validatedConnPoolOptions d p).refreshTimeout <
        (validatedConnPoolOptions d p).refreshRequirement ∧
    ((validatedConnPoolOptions d p).refreshRequirement <
        (validatedConnPoolOptions d p).hostTimeout ↔
      (0 ≤ (validatedConnPoolOptions d p).refreshTimeout ∨
        p.ShardingTaskExecutorPoolRefreshRequirementMS <
          p.ShardingTaskExecutorPoolHostTimeoutMS)) ∧
    (1 ≤ p.ShardingTaskExecutorPoolRefreshRequirementMS ∧
        0 ≤ p.ShardingTaskExecutorPoolRefreshTimeoutMS →
      (validatedConnPoolOptions d p).refreshTimeout <
          (validatedConnPoolOptions d p).refreshRequirement ∧
        (validatedConnPoolOptions d p).refreshRequirement <
          (validatedConnPoolOptions d p).hostTimeout) := by
  obtain ⟨e1, e2, e3⟩ := validatedConnPoolOptions_durations d p
  have hlt : (validatedConnPoolOptions d p).refreshTimeout <
      (validatedConnPoolOptions d p).refreshRequirement :=
    selfCorrect_refreshTimeout_lt (rawConnPoolOptions d p)
  refine ⟨hlt, ?_, ?_⟩
  · rw [e2, e3]
    generalize (validatedConnPoolOptions d p).refreshTimeout = t'
    split <;> constructor <;> intro h <;> omega
  · intro hpos
    refine ⟨hlt, ?_⟩
    have h0 : 0 ≤ (validatedConnPoolOptions d p).refreshTimeout := by
      rw [e1]
      split <;> omega
    rw [e2, e3]
    generalize (validatedConnPoolOptions d p).refreshTimeout = t' at h0
    split <;> omega

/-- C1, at a concrete input: all three tunables equal to 5 ms give the options
`refreshTimeout' = 4`, `refreshRequirement = 5`, `hostTimeout' = 10`. -/
theorem selfCorrect_chain_iff_witness :
    ((1 : Int) ≤ 5 ∧ (0 : Int) ≤ 5) ∧
    (validatedConnPoolOptions ⟨18446744073709551615, 18446744073709551615⟩
        ⟨5, -1, 2, 1, 5, 5⟩).refreshTimeout = 4 ∧
    (validatedConnPoolOptions ⟨18446744073709551615, 18446744073709551615⟩
        ⟨5, -1, 2, 1, 5, 5⟩).refreshRequirement = 5 ∧
    (validatedConnPoolOptions ⟨18446744073709551615, 18446744073709551615⟩
        ⟨5, -1, 2, 1, 5, 5⟩).hostTimeout = 10 ∧
    ((validatedConnPoolOptions ⟨18446744073709551615, 18446744073709551615⟩
        ⟨5, -1, 2, 1, 5, 5⟩).refreshTimeout <
      (validatedConnPoolOptions ⟨18446744073709551615, 18446744073709551615⟩
        ⟨5, -1, 2, 1, 5, 5⟩).refreshRequirement ∧
    (validatedConnPoolOptions ⟨18446744073709551615, 18446744073709551615⟩
        ⟨5, -1, 2, 1, 5, 5⟩).refreshRequirement <
      (validatedConnPoolOptions ⟨18446744073709551615, 18446744073709551615⟩
        ⟨5, -1, 2, 1, 5, 5⟩).hostTimeout) :=
  ⟨by decide, by decide, by decide, by decide,
    (selfCorrect_chain_iff ⟨18446744073709551615, 18446744073709551615⟩
      ⟨5, -1, 2, 1, 5, 5⟩).2.2 (by decide)⟩

/-- C1, the claim as stated fails: with all three tunables equal to 0 the pass
yields `refreshTimeout' = -1`, `refreshRequirement = 0`, `hostTimeout' = 0`, and
`refreshRequirement < hostTimeout'` is false. -/
theorem selfCorrect_chain_fails_all_zero :
    (validatedConnPoolOptions ⟨18446744073709551615, 18446744073709551615⟩
        ⟨0, -1, 2, 1, 0, 0⟩).refreshTimeout = -1 ∧
    (validatedConnPoolOptions ⟨18446744073709551615, 18446744073709551615⟩
        ⟨0, -1, 2, 1, 0, 0⟩).refreshRequirement = 0 ∧
    (validatedConnPoolOptions ⟨18446744073709551615, 18446744073709551615⟩
        ⟨0, -1, 2, 1, 0, 0⟩).hostTimeout = 0 ∧
    ServerParameters.wellFormed ⟨0, -1, 2, 1, 0, 0⟩ ∧
    ¬ ((validatedConnPoolOptions ⟨18446744073709551615, 18446744073709551615⟩
          ⟨0, -1, 2, 1, 0, 0⟩).refreshTimeout <
        (validatedConnPoolOptions ⟨18446744073709551615, 18446744073709551615⟩
          ⟨0, -1, 2, 1, 0, 0⟩).refreshRequirement ∧
      (validatedConnPoolOptions ⟨18446744073709551615, 18446744073709551615⟩
          ⟨0, -1, 2, 1, 0, 0⟩).refreshRequirement <
        (validatedConnPoolOptions ⟨18446744073709551615, 18446744073709551615⟩
          ⟨0, -1, 2, 1, 0, 0⟩).hostTimeout) := by
  refine ⟨by decide, by decide, by decide, ?_, by decide⟩
  unfold ServerParameters.wellFormed isInt32
  decide

/-- C10. For every input the pass leaves `refreshTimeout' < refreshRequirement`
and `hostTimeout' > refreshRequirement + refreshTimeout'`, and a second run of
the pass on its own output changes nothing. -/
theorem selfCorrect_idempotent (d : ConnectionPoolDefaults) (p : ServerParameters) :
    (validatedConnPoolOptions d p).refreshTimeout <
        (validatedConnPoolOptions d p).refreshRequirement ∧
    (validatedConnPoolOptions d p).refreshRequirement +
        (validatedConnPoolOptions d p).refreshTimeout <
      (validatedConnPoolOptions d p).hostTimeout ∧
    selfCorrect (validatedConnPoolOptions d p) = validatedConnPoolOptions d p :=
  ⟨selfCorrect_refreshTimeout_lt _, selfCorrect_sum_lt_hostTimeout _,
    selfCorrect_of_ordered _ (selfCorrect_refreshTimeout_lt _)
      (selfCorrect_sum_lt_hostTimeout _)⟩

/-! ## The executor pool -/

theorem poolLoopBody_eq (opts : ConnectionPoolOptions) (hb i : Nat)
    (execs : List TaskExecutor) (w : World) (hw : w.hooksBuilt = hb + i) :
    poolLoopBody opts i (execs, w) =
      (execs ++ [makeShardingTaskExecutor (pooledTransport opts hb i)],
        { calls := w.calls ++ pooledCalls opts hb i, hooksBuilt := hb + (i + 1) }) := by
  simp [poolLoopBody, hookBuilder, makeNetworkInterface, World.record, pooledTransport,
    pooledCalls, hw, Nat.add_assoc]

theorem poolLoop_eq (opts : ConnectionPoolOptions) (hb : Nat) :
    ∀ (fuel i : Nat) (execs : List TaskExecutor) (w : World), w.hooksBuilt = hb + i →
      poolLoop opts (i + fuel) fuel i (execs, w) =
        (execs ++ (List.range' i fuel).map
            (fun j => makeShardingTaskExecutor (pooledTransport opts hb j)),
          { calls := w.calls ++ (List.range' i fuel).flatMap (pooledCalls opts hb),
            hooksBuilt := hb + (i + fuel) }) := by
  intro fuel
  induction fuel with
  | zero =>
    intro i execs w hw
    simp [poolLoop, ← hw]
  | succ n ih =>
    intro i execs w hw
    have hlt : i < i + (n + 1) := by omega
    rw [poolLoop, if_pos hlt, poolLoopBody_eq opts hb i execs w hw]
    have hsum : i + (n + 1) = (i + 1) + n := by omega
    rw [hsum, ih (i + 1) _ _ rfl]
    simp [List.range'_succ, List.flatMap_cons, List.append_assoc]

theorem builtTransports_append (a b : List Call) :
    builtTransports (a ++ b) = builtTransports a ++ builtTransports b := by
  simp [builtTransports, List.filterMap_append]

theorem builtTransports_pooledCalls (opts : ConnectionPoolOptions) (hb : Nat)
    (l : List Nat) :
    builtTransports (l.flatMap (pooledCalls opts hb)) = l.map (pooledTransport opts hb) := by
  induction l with
  | nil => rfl
  | cons a l ih =>
    rw [List.flatMap_cons, builtTransports_append, ih]
    rfl

theorem hookInvocations_append (a b : List Call) :
    hookInvocations (a ++ b) = hookInvocations a + hookInvocations b := by
  simp [hookInvocations, List.filter_append]

theorem hookInvocations_pooledCalls (opts : ConnectionPoolOptions) (hb : Nat)
    (l : List Nat) :
    hookInvocations (l.flatMap (pooledCalls opts hb)) = l.length := by
  induction l with
  | nil => rfl
  | cons a l ih =>
    rw [List.flatMap_cons, hookInvocations_append, ih]
    simp [hookInvocations, pooledCalls]
    omega

theorem stage_pooledCalls (opts : ConnectionPoolOptions) (hb : Nat) (l : List Nat) :
    (l.flatMap (pooledCalls opts hb)).filterMap Call.stage = [] := by
  induction l with
  | nil => rfl
  | cons a l ih =>
    rw [List.flatMap_cons, List.filterMap_append, ih]
    rfl

/-- The pool builder in closed form. -/
theorem makeShardingTaskExecutorPool_eq (fixedNet : NetworkInterface)
    (opts : ConnectionPoolOptions) (size : Option Nat) (suggested : Nat) (w : World) :
    makeShardingTaskExecutorPool fixedNet opts size suggested w =
      ({ executors := (List.range (size.getD suggested)).map
            (fun j => makeShardingTaskExecutor (pooledTransport opts w.hooksBuilt j)),
         fixedExecutor := some (makeShardingTaskExecutor fixedNet) },
        { calls := w.calls ++
            (List.range (size.getD suggested)).flatMap (pooledCalls opts w.hooksBuilt) ++
            [Call.addExecutors
              ((List.range (size.getD suggested)).map
                (fun j => makeShardingTaskExecutor (pooledTransport opts w.hooksBuilt j)))
              (makeShardingTaskExecutor fixedNet)],
          hooksBuilt := w.hooksBuilt + size.getD suggested }) := by
  have h := poolLoop_eq opts w.hooksBuilt (size.getD suggested) 0 [] w rfl
  simp only [Nat.zero_add, List.nil_append] at h
  simp only [makeShardingTaskExecutorPool, h, World.record, List.range_eq_range']

/-- C8. For every explicit pool size `N` the builder hands the pool exactly
`N` parallel executors, the `i`-th one wrapping the transport built in this call
under the name with index `i` (`0..N-1`, in order, each with a hook of its own),
and exactly one fixed executor, which wraps the supplied fixed transport. -/
theorem makeShardingTaskExecutorPool_explicit_size (N : Nat) (fixedNet : NetworkInterface)
    (opts : ConnectionPoolOptions) (suggested : Nat) (w : World) :
    ∃ built : List Call,
      (makeShardingTaskExecutorPool fixedNet opts (some N) suggested w).2.calls =
        w.calls ++ built ++
          [Call.addExecutors
            (makeShardingTaskExecutorPool fixedNet opts (some N) suggested w).1.executors
            (makeShardingTaskExecutor fixedNet)] ∧
      (makeShardingTaskExecutorPool fixedNet opts (some N) suggested w).1.executors.length
        = N ∧
      (makeShardingTaskExecutorPool fixedNet opts (some N) suggested w).1.executors.map
          (fun e => e.net.instanceName) =
        (List.range N).map
          (fun i => "NetworkInterfaceASIO-TaskExecutorPool-yang-" ++ toString i) ∧
      (makeShardingTaskExecutorPool fixedNet opts (some N) suggested w).1.executors.map
          (fun e => e.net) = builtTransports built ∧
      (∀ e ∈ (makeShardingTaskExecutorPool fixedNet opts (some N) suggested w).1.executors,
        e = makeShardingTaskExecutor e.net) ∧
      hookInvocations built = N ∧
      (makeShardingTaskExecutorPool fixedNet opts (some N) suggested w).1.fixedExecutor =
        some (makeShardingTaskExecutor fixedNet) ∧
      (makeShardingTaskExecutor fixedNet).net = fixedNet := by
  refine ⟨(List.range N).flatMap (pooledCalls opts w.hooksBuilt), ?_⟩
  rw [makeShardingTaskExecutorPool_eq]
  simp only [Option.getD_some]
  refine ⟨?_, by simp, ?_, ?_, ?_, ?_, ?_, ?_⟩
  · trivial
  · simp [List.map_map, Function.comp_def, makeShardingTaskExecutor, pooledTransport]
  · rw [builtTransports_pooledCalls]
    simp [List.map_map, Function.comp_def, makeShardingTaskExecutor]
  · intro e he
    simp only [List.mem_map] at he
    obtain ⟨j, -, rfl⟩ := he
    rfl
  · rw [hookInvocations_pooledCalls]
    simp
  · trivial
  · trivial

/-! ## The bootstrap sequence -/

/-- C3. For every run with a valid connection string, whatever the pool size,
the run returns OK and the calls it records contain executor-pool startup, grid
init, shard-registry startup, catalog-client startup, key-manager creation and
key-manager `startMonitoring` exactly once each and in this order. -/
theorem initializeGlobalShardingState_stage_order (ps : ProcessState)
    (configCS : ConnectionString) (distLockProcessId : String)
    (taskExecutorPoolSize : Option Nat) (w : World)
    (hvalid : configCS.type ≠ ConnectionType.INVALID) :
    (initializeGlobalShardingState ps configCS distLockProcessId taskExecutorPoolSize w).1
        = Status.OK ∧
    ∃ made : List Call,
      (initializeGlobalShardingState ps configCS distLockProcessId
          taskExecutorPoolSize w).2.calls = w.calls ++ made ∧
      made.filterMap Call.stage =
        [Stage.executorPoolStartup, Stage.gridInit, Stage.shardRegistryStartup,
          Stage.catalogClientStartup, Stage.keyManagerCreate,
          Stage.keyManagerStartMonitoring] := by
  unfold initializeGlobalShardingState
  rw [if_neg hvalid]
  simp only [makeShardingTaskExecutorPool_eq, hookBuilder, makeNetworkInterface, World.record]
  refine ⟨trivial, ?_⟩
  split
  · refine ⟨_, by simp only [List.append_assoc]; rfl, ?_⟩
    simp [List.filterMap_append, stage_pooledCalls, Call.stage]
  · refine ⟨_, by simp only [List.append_assoc]; rfl, ?_⟩
    simp [List.filterMap_append, stage_pooledCalls, Call.stage]

/-- C3, at a concrete input: a replica-set connection string and pool size 2. -/
theorem initializeGlobalShardingState_stage_order_witness :
    (⟨ConnectionType.SET, "cfg/a:27019,b:27019"⟩ : ConnectionString).type
        ≠ ConnectionType.INVALID ∧
    ((initializeGlobalShardingState
        ⟨⟨300000, -1, 2, 1, 60000, 20000⟩, ⟨18446744073709551615, 18446744073709551615⟩,
          4, ClusterRole.None, false⟩
        ⟨ConnectionType.SET, "cfg/a:27019,b:27019"⟩ "host:27017:1:2" (some 2) ⟨[], 0⟩).1
        = Status.OK ∧
    ∃ made : List Call,
      (initializeGlobalShardingState
        ⟨⟨300000, -1, 2, 1, 60000, 20000⟩, ⟨18446744073709551615, 18446744073709551615⟩,
          4, ClusterRole.None, false⟩
        ⟨ConnectionType.SET, "cfg/a:27019,b:27019"⟩ "host:27017:1:2" (some 2)
          ⟨[], 0⟩).2.calls = ([] : List Call) ++ made ∧
      made.filterMap Call.stage =
        [Stage.executorPoolStartup, Stage.gridInit, Stage.shardRegistryStartup,
          Stage.catalogClientStartup, Stage.keyManagerCreate,
          Stage.keyManagerStartMonitoring]) :=
  ⟨by decide, initializeGlobalShardingState_stage_order _ _ _ _ _ (by decide)⟩

/-- C4. For every call whose connection string has type INVALID the call returns
the BadValue error and leaves the world as it found it: nothing is recorded, so
no transport is constructed, the hook builder is not invoked, no pool is built
or started and the grid is not initialized. -/
theorem initializeGlobalShardingState_invalid (ps : ProcessState)
    (configCS : ConnectionString) (distLockProcessId : String)
    (taskExecutorPoolSize : Option Nat) (w : World)
    (hinvalid : configCS.type = ConnectionType.INVALID) :
    (initializeGlobalShardingState ps configCS distLockProcessId taskExecutorPoolSize w).1
        = ⟨ErrorCodes.BadValue, "Unrecognized connection string."⟩ ∧
    (initializeGlobalShardingState ps configCS distLockProcessId taskExecutorPoolSize w).2
        = w ∧
    builtTransports
        (initializeGlobalShardingState ps configCS distLockProcessId
          taskExecutorPoolSize w).2.calls = builtTransports w.calls ∧
    hookInvocations
        (initializeGlobalShardingState ps configCS distLockProcessId
          taskExecutorPoolSize w).2.calls = hookInvocations w.calls := by
  unfold initializeGlobalShardingState
  rw [if_pos hinvalid]
  exact ⟨rfl, rfl, rfl, rfl⟩

/-- C4, at a concrete input: an INVALID connection string and an empty record. -/
theorem initializeGlobalShardingState_invalid_witness :
    (⟨ConnectionType.INVALID, ""⟩ : ConnectionString).type = ConnectionType.INVALID ∧
    ((initializeGlobalShardingState
        ⟨⟨300000, -1, 2, 1, 60000, 20000⟩, ⟨18446744073709551615, 18446744073709551615⟩,
          4, ClusterRole.None, false⟩
        ⟨ConnectionType.INVALID, ""⟩ "host:27017:1:2" (some 8) ⟨[], 0⟩).1
        = ⟨ErrorCodes.BadValue, "Unrecognized connection string."⟩ ∧
    (initializeGlobalShardingState
        ⟨⟨300000, -1, 2, 1, 60000, 20000⟩, ⟨18446744073709551615, 18446744073709551615⟩,
          4, ClusterRole.None, false⟩
        ⟨ConnectionType.INVALID, ""⟩ "host:27017:1:2" (some 8) ⟨[], 0⟩).2
        = ⟨[], 0⟩ ∧
    builtTransports
        (initializeGlobalShardingState
          ⟨⟨300000, -1, 2, 1, 60000, 20000⟩, ⟨18446744073709551615, 18446744073709551615⟩,
            4, ClusterRole.None, false⟩
          ⟨ConnectionType.INVALID, ""⟩ "host:27017:1:2" (some 8) ⟨[], 0⟩).2.calls
        = builtTransports [] ∧
    hookInvocations
        (initializeGlobalShardingState
          ⟨⟨300000, -1, 2, 1, 60000, 20000⟩, ⟨18446744073709551615, 18446744073709551615⟩,
            4, ClusterRole.None, false⟩
          ⟨ConnectionType.INVALID, ""⟩ "host:27017:1:2" (some 8) ⟨[], 0⟩).2.calls
        = hookInvocations []) :=
  ⟨rfl, initializeGlobalShardingState_invalid _ _ _ _ _ rfl⟩

/-! ## Waiting for the shard registry -/

/-- An iteration that continues adds its retry effects and re-enters the loop. -/
theorem waitLoop_continue (polls : Nat → Poll) (fuel i : Nat) (log : List WaitEvent)
    (h : (polls i).continues = true) :
    waitLoop polls (fuel + 1) i log =
      waitLoop polls fuel (i + 1) (log ++ (polls i).retryEvents) := by
  simp only [Poll.continues, Bool.and_eq_true, Bool.not_eq_true', Bool.and_eq_false_imp]
    at h
  obtain ⟨⟨h1, h2⟩, h3⟩ := h
  rw [waitLoop]
  simp only [h1, h2, Poll.retryEvents]
  cases hl : (polls i).loadClusterId.isOK
  · simp
  · simp [h3 hl]

/-- A run of `n` continuing iterations adds their retry effects in order. -/
theorem waitLoop_continue_many (polls : Nat → Poll) :
    ∀ (n fuel i : Nat) (log : List WaitEvent),
      (∀ j, i ≤ j → j < i + n → (polls j).continues = true) →
      waitLoop polls (fuel + n) i log =
        waitLoop polls fuel (i + n)
          (log ++ (List.range' i n).flatMap (fun j => (polls j).retryEvents)) := by
  intro n
  induction n with
  | zero => intro fuel i log _; simp
  | succ n ih =>
    intro fuel i log h
    have e : fuel + (n + 1) = (fuel + n) + 1 := by omega
    rw [e, waitLoop_continue polls _ i log (h i (Nat.le_refl i) (by omega)),
      ih fuel (i + 1) _ (fun j h1 h2 => h j (by omega) (by omega))]
    have e2 : i + 1 + n = i + (n + 1) := by omega
    rw [e2]
    simp [List.range'_succ, List.flatMap_cons, List.append_assoc]

/-- An iteration whose top-of-loop checks observe a cancellation returns at
once: no effect is added to the ones made so far. -/
theorem waitLoop_cancelled (polls : Nat → Poll) (fuel i : Nat) (log : List WaitEvent)
    (h : (polls i).cancelled = true) :
    waitLoop polls (fuel + 1) i log =
      some (if (polls i).globalInShutdown then shutdownInProgress
            else (polls i).checkForInterrupt, log) := by
  rw [waitLoop]
  cases hs : (polls i).globalInShutdown
  · simp only [Poll.cancelled, hs, Bool.false_or, Bool.not_eq_true'] at h
    simp [h]
  · simp

/-- An iteration with no cancellation, a successful load and a registry that is
up returns OK after the load and the `isUp` check. -/
theorem waitLoop_ready (polls : Nat → Poll) (fuel i : Nat) (log : List WaitEvent)
    (h1 : (polls i).globalInShutdown = false) (h2 : (polls i).checkForInterrupt.isOK = true)
    (h3 : (polls i).loadClusterId.isOK = true) (h4 : (polls i).shardRegistryIsUp = true) :
    waitLoop polls (fuel + 1) i log =
      some (Status.OK, log ++ [WaitEvent.loadClusterId, WaitEvent.isUp]) := by
  rw [waitLoop]
  simp [h1, h2, h3, h4]

/-- Whatever the loop returns is OK, the shutdown status of line 313, or the
non-OK status the interrupt check of some iteration handed back. -/
theorem waitLoop_status (polls : Nat → Poll) :
    ∀ (fuel i : Nat) (log : List WaitEvent) (st : Status) (out : List WaitEvent),
      waitLoop polls fuel i log = some (st, out) →
      st = Status.OK ∨ st = shutdownInProgress ∨
        ∃ j, i ≤ j ∧ j < i + fuel ∧ st = (polls j).checkForInterrupt ∧ st.isOK = false := by
  intro fuel
  induction fuel with
  | zero => intro i log st out h; simp [waitLoop] at h
  | succ n ih =>
    intro i log st out h
    have lift : ∀ log2, waitLoop polls n (i + 1) log2 = some (st, out) →
        st = Status.OK ∨ st = shutdownInProgress ∨
          ∃ j, i ≤ j ∧ j < i + (n + 1) ∧ st = (polls j).checkForInterrupt ∧
            st.isOK = false := by
      intro log2 h2
      rcases ih (i + 1) log2 st out h2 with h3 | h3 | ⟨j, h4, h5, h6⟩
      · exact Or.inl h3
      · exact Or.inr (Or.inl h3)
      · exact Or.inr (Or.inr ⟨j, by omega, by omega, h6⟩)
    rw [waitLoop] at h
    cases hs : (polls i).globalInShutdown
    · cases hi : (polls i).checkForInterrupt.isOK
      · simp only [hs, hi] at h
        simp at h
        refine Or.inr (Or.inr ⟨i, Nat.le_refl i, by omega, h.1.symm, ?_⟩)
        rw [← h.1]; exact hi
      · cases hl : (polls i).loadClusterId.isOK
        · simp only [hs, hi, hl] at h
          simp at h
          exact lift _ h
        · cases hu : (polls i).shardRegistryIsUp
          · simp only [hs, hi, hl, hu] at h
            simp at h
            exact lift _ h
          · simp only [hs, hi, hl, hu] at h
            simp at h
            exact Or.inl h.1.symm
    · simp only [hs] at h
      simp at h
      exact Or.inr (Or.inl h.1.symm)

theorem loadAttempts_append (a b : List WaitEvent) :
    loadAttempts (a ++ b) = loadAttempts a + loadAttempts b := by
  simp [loadAttempts, List.filter_append]

theorem sleeps_append (a b : List WaitEvent) : sleeps (a ++ b) = sleeps a ++ sleeps b := by
  simp [sleeps, List.filterMap_append]

theorem loadAttempts_retryEvents (p : Poll) : loadAttempts p.retryEvents = 1 := by
  unfold Poll.retryEvents
  split <;> rfl

theorem sleeps_retryEvents (p : Poll) : sleeps p.retryEvents = [kRetryInterval] := by
  unfold Poll.retryEvents
  split <;> rfl

theorem loadAttempts_retries (polls : Nat → Poll) (l : List Nat) :
    loadAttempts (l.flatMap (fun j => (polls j).retryEvents)) = l.length := by
  induction l with
  | nil => rfl
  | cons a l ih =>
    rw [List.flatMap_cons, loadAttempts_append, ih, loadAttempts_retryEvents]
    simp [Nat.add_comm]

theorem sleeps_retries (polls : Nat → Poll) (l : List Nat) :
    sleeps (l.flatMap (fun j => (polls j).retryEvents)) =
      List.replicate l.length kRetryInterval := by
  induction l with
  | nil => rfl
  | cons a l ih =>
    rw [List.flatMap_cons, sleeps_append, ih, sleeps_retryEvents]
    simp [List.replicate_succ]

/-- The returned status does not depend on which errors the identity loads
fail with: two runs whose collaborators agree on everything but the error of a
failed load return the same status. -/
theorem waitLoop_status_indep (polls polls' : Nat → Poll)
    (hagree : ∀ i, (polls' i).globalInShutdown = (polls i).globalInShutdown ∧
      (polls' i).checkForInterrupt = (polls i).checkForInterrupt ∧
      (polls' i).loadClusterId.isOK = (polls i).loadClusterId.isOK ∧
      (polls' i).shardRegistryIsUp = (polls i).shardRegistryIsUp) :
    ∀ (fuel i : Nat) (log log' : List WaitEvent),
      (waitLoop polls' fuel i log').map Prod.fst = (waitLoop polls fuel i log).map Prod.fst := by
  intro fuel
  induction fuel with
  | zero => intro i log log'; rfl
  | succ n ih =>
    intro i log log'
    obtain ⟨a1, a2, a3, a4⟩ := hagree i
    rw [waitLoop, waitLoop, a1, a2, a3, a4]
    cases hs : (polls i).globalInShutdown
    · cases hi : (polls i).checkForInterrupt.isOK
      · simp [hi]
      · cases hl : (polls i).loadClusterId.isOK
        · simpa [hi, hl] using ih (i + 1) _ _
        · cases hu : (polls i).shardRegistryIsUp
          · simpa [hi, hl, hu] using ih (i + 1) _ _
          · simp [hi, hl, hu]
    · simp

/-- C5, as amended. Whatever a terminating run returns is OK, the
ShutdownInProgress status of line 313, or the non-OK status that the interrupt
check of one of its iterations handed back; and the returned status is the same
whatever errors the identity loads failed with. -/
theorem waitForShardRegistryReload_status (clusterRole : ClusterRole) (polls : Nat → Poll)
    (fuel : Nat) (st : Status) (log : List WaitEvent)
    (hrun : waitForShardRegistryReload clusterRole polls fuel = some (st, log)) :
    (st = Status.OK ∨ st = shutdownInProgress ∨
      ∃ j, j < fuel ∧ st = (polls j).checkForInterrupt ∧ st.isOK = false) ∧
    ∀ polls' : Nat → Poll,
      (∀ i, (polls' i).globalInShutdown = (polls i).globalInShutdown ∧
        (polls' i).checkForInterrupt = (polls i).checkForInterrupt ∧
        (polls' i).loadClusterId.isOK = (polls i).loadClusterId.isOK ∧
        (polls' i).shardRegistryIsUp = (polls i).shardRegistryIsUp) →
      (waitForShardRegistryReload clusterRole polls' fuel).map Prod.fst = some st := by
  unfold waitForShardRegistryReload at hrun ⊢
  constructor
  · split at hrun
    · simp only [Option.some.injEq, Prod.mk.injEq] at hrun
      exact Or.inl hrun.1.symm
    · rcases waitLoop_status polls fuel 0 [] st log hrun with h | h | ⟨j, -, h2, h3⟩
      · exact Or.inl h
      · exact Or.inr (Or.inl h)
      · exact Or.inr (Or.inr ⟨j, by omega, h3⟩)
  · intro polls' hagree
    split
    · rename_i hc
      rw [if_pos hc] at hrun
      simp only [Option.some.injEq, Prod.mk.injEq] at hrun
      simp [hrun.1]
    · rename_i hc
      rw [if_neg hc] at hrun
      rw [waitLoop_status_indep polls polls' hagree fuel 0 [] [], hrun]
      rfl

/-- C5, at a concrete input: one failed load, then a successful one with the
registry up. -/
theorem waitForShardRegistryReload_status_witness :
    waitForShardRegistryReload ClusterRole.ShardServer
        (fun i => if i = 0 then ⟨false, Status.OK, ⟨ErrorCodes.HostUnreachable, "no host"⟩, false⟩
          else ⟨false, Status.OK, Status.OK, true⟩) 2 =
      some (Status.OK,
        [WaitEvent.loadClusterId, WaitEvent.warning ⟨ErrorCodes.HostUnreachable, "no host"⟩,
          WaitEvent.sleepFor 2, WaitEvent.loadClusterId, WaitEvent.isUp]) ∧
    ((Status.OK = Status.OK ∨ Status.OK = shutdownInProgress ∨
      ∃ j, j < 2 ∧
        Status.OK = ((fun i => if i = 0 then
            (⟨false, Status.OK, ⟨ErrorCodes.HostUnreachable, "no host"⟩, false⟩ : Poll)
          else ⟨false, Status.OK, Status.OK, true⟩) j).checkForInterrupt ∧
        Status.OK.isOK = false) ∧
    ∀ polls' : Nat → Poll,
      (∀ i, (polls' i).globalInShutdown =
          ((fun i => if i = 0 then
            (⟨false, Status.OK, ⟨ErrorCodes.HostUnreachable, "no host"⟩, false⟩ : Poll)
          else ⟨false, Status.OK, Status.OK, true⟩) i).globalInShutdown ∧
        (polls' i).checkForInterrupt =
          ((fun i => if i = 0 then
            (⟨false, Status.OK, ⟨ErrorCodes.HostUnreachable, "no host"⟩, false⟩ : Poll)
          else ⟨false, Status.OK, Status.OK, true⟩) i).checkForInterrupt ∧
        (polls' i).loadClusterId.isOK =
          ((fun i => if i = 0 then
            (⟨false, Status.OK, ⟨ErrorCodes.HostUnreachable, "no host"⟩, false⟩ : Poll)
          else ⟨false, Status.OK, Status.OK, true⟩) i).loadClusterId.isOK ∧
        (polls' i).shardRegistryIsUp =
          ((fun i => if i = 0 then
            (⟨false, Status.OK, ⟨ErrorCodes.HostUnreachable, "no host"⟩, false⟩ : Poll)
          else ⟨false, Status.OK, Status.OK, true⟩) i).shardRegistryIsUp) →
      (waitForShardRegistryReload ClusterRole.ShardServer polls' 2).map Prod.fst
        = some Status.OK) :=
  ⟨by decide, waitForShardRegistryReload_status ClusterRole.ShardServer _ 2 Status.OK
    [WaitEvent.loadClusterId, WaitEvent.warning ⟨ErrorCodes.HostUnreachable, "no host"⟩,
      WaitEvent.sleepFor 2, WaitEvent.loadClusterId, WaitEvent.isUp] (by decide)⟩

/-- C5, the claim as stated fails: on a shard server whose operation deadline
has expired the interrupt check hands back ExceededTimeLimit and the function
returns that status, which is neither OK nor ShutdownInProgress. -/
theorem waitForShardRegistryReload_returns_interrupt_status :
    waitForShardRegistryReload ClusterRole.ShardServer
        (fun _ => ⟨false, ⟨ErrorCodes.ExceededTimeLimit, "operation exceeded time limit"⟩,
          Status.OK, true⟩) 1 =
      some (⟨ErrorCodes.ExceededTimeLimit, "operation exceeded time limit"⟩, []) ∧
    ErrorCodes.ExceededTimeLimit ≠ ErrorCodes.OK ∧
    ErrorCodes.ExceededTimeLimit ≠ ErrorCodes.ShutdownInProgress ∧
    ¬ (∀ (clusterRole : ClusterRole) (polls : Nat → Poll) (fuel : Nat) (st : Status)
        (log : List WaitEvent),
        waitForShardRegistryReload clusterRole polls fuel = some (st, log) →
        st.code = ErrorCodes.OK ∨ st.code = ErrorCodes.ShutdownInProgress) := by
  refine ⟨by decide, by decide, by decide, ?_⟩
  intro h
  have h2 := h ClusterRole.ShardServer
    (fun _ => ⟨false, ⟨ErrorCodes.ExceededTimeLimit, "operation exceeded time limit"⟩,
      Status.OK, true⟩) 1 ⟨ErrorCodes.ExceededTimeLimit, "operation exceeded time limit"⟩ []
    (by decide)
  revert h2
  decide

/-- C6. On a node that is not a config server, with no shutdown and no
interruption, if the first `k` identity loads fail and load `k + 1` succeeds
with the registry up, the function returns OK after exactly `k + 1` load
attempts and exactly `k` sleeps, each of 2 seconds. -/
theorem waitForShardRegistryReload_retries (k fuel : Nat) (clusterRole : ClusterRole)
    (polls : Nat → Poll) (hrole : clusterRole ≠ ClusterRole.ConfigServer) (hfuel : k < fuel)
    (hquiet : ∀ i, i ≤ k → (polls i).globalInShutdown = false ∧
      (polls i).checkForInterrupt.isOK = true)
    (hfail : ∀ i, i < k → (polls i).loadClusterId.isOK = false)
    (hload : (polls k).loadClusterId.isOK = true)
    (hup : (polls k).shardRegistryIsUp = true) :
    ∃ log : List WaitEvent,
      waitForShardRegistryReload clusterRole polls fuel = some (Status.OK, log) ∧
      loadAttempts log = k + 1 ∧
      sleeps log = List.replicate k 2 := by
  have hcont : ∀ j, 0 ≤ j → j < 0 + k → (polls j).continues = true := by
    intro j _ hj
    have hj' : j < k := by omega
    simp [Poll.continues, (hquiet j (by omega)).1, (hquiet j (by omega)).2, hfail j hj']
  obtain ⟨m, rfl⟩ : ∃ m, fuel = (m + 1) + k := ⟨fuel - k - 1, by omega⟩
  refine ⟨[] ++ (List.range' 0 k).flatMap (fun j => (polls j).retryEvents) ++
    [WaitEvent.loadClusterId, WaitEvent.isUp], ?_, ?_, ?_⟩
  · unfold waitForShardRegistryReload
    rw [if_neg hrole, waitLoop_continue_many polls k (m + 1) 0 [] hcont, Nat.zero_add,
      waitLoop_ready polls m k _ (hquiet k (Nat.le_refl k)).1 (hquiet k (Nat.le_refl k)).2
        hload hup]
  · rw [loadAttempts_append, List.nil_append, loadAttempts_retries]
    simp [loadAttempts]
  · rw [sleeps_append, List.nil_append, sleeps_retries]
    simp [sleeps, kRetryInterval]

/-- C6, at the spec's input `k = 3`: three failed loads, success on the fourth. -/
theorem waitForShardRegistryReload_retries_witness :
    ClusterRole.None ≠ ClusterRole.ConfigServer ∧ 3 < 4 ∧
    waitForShardRegistryReload ClusterRole.None
        (fun i => if i < 3 then
          ⟨false, Status.OK, ⟨ErrorCodes.HostUnreachable, "no host"⟩, false⟩
        else ⟨false, Status.OK, Status.OK, true⟩) 4 =
      some (Status.OK,
        [WaitEvent.loadClusterId, WaitEvent.warning ⟨ErrorCodes.HostUnreachable, "no host"⟩,
          WaitEvent.sleepFor 2,
          WaitEvent.loadClusterId, WaitEvent.warning ⟨ErrorCodes.HostUnreachable, "no host"⟩,
          WaitEvent.sleepFor 2,
          WaitEvent.loadClusterId, WaitEvent.warning ⟨ErrorCodes.HostUnreachable, "no host"⟩,
          WaitEvent.sleepFor 2,
          WaitEvent.loadClusterId, WaitEvent.isUp]) ∧
    ∃ log : List WaitEvent,
      waitForShardRegistryReload ClusterRole.None
          (fun i => if i < 3 then
            ⟨false, Status.OK, ⟨ErrorCodes.HostUnreachable, "no host"⟩, false⟩
          else ⟨false, Status.OK, Status.OK, true⟩) 4 = some (Status.OK, log) ∧
      loadAttempts log = 3 + 1 ∧
      sleeps log = List.replicate 3 2 :=
  ⟨by decide, by decide, by decide,
    waitForShardRegistryReload_retries 3 4 ClusterRole.None _ (by decide) (by decide)
      (by intro i hi; have : i < 3 ∨ i = 3 := by omega
          rcases this with h | h
          · simp [h]; rfl
          · subst h; exact ⟨rfl, rfl⟩)
      (by intro i hi; simp [hi]; rfl)
      rfl rfl⟩

/-- C7, as amended. On a node that is not a config server, once the checks at
the top of an iteration observe a cancellation (after `n` iterations that
retried, so also right after a retry sleep), the function makes no further load
and no further `isUp` check, the effects being exactly those of the `n` earlier
iterations (whatever effects the loop has made so far, the cancelled iteration
adds none), and it returns the ShutdownInProgress status if the shutdown flag is
set and otherwise the non-OK status the interrupt check handed back. -/
theorem waitForShardRegistryReload_cancelled (n fuel : Nat) (clusterRole : ClusterRole)
    (polls : Nat → Poll) (hrole : clusterRole ≠ ClusterRole.ConfigServer) (hfuel : n < fuel)
    (hcont : ∀ j, j < n → (polls j).continues = true)
    (hcancel : (polls n).cancelled = true) :
    waitForShardRegistryReload clusterRole polls fuel =
      some (if (polls n).globalInShutdown then shutdownInProgress
            else (polls n).checkForInterrupt,
        (List.range n).flatMap (fun j => (polls j).retryEvents)) ∧
    (if (polls n).globalInShutdown then shutdownInProgress
      else (polls n).checkForInterrupt).isOK = false ∧
    loadAttempts ((List.range n).flatMap (fun j => (polls j).retryEvents)) = n ∧
    ∀ (m : Nat) (log : List WaitEvent),
      waitLoop polls (m + 1) n log =
        some (if (polls n).globalInShutdown then shutdownInProgress
              else (polls n).checkForInterrupt, log) := by
  obtain ⟨m, rfl⟩ : ∃ m, fuel = (m + 1) + n := ⟨fuel - n - 1, by omega⟩
  refine ⟨?_, ?_, ?_, fun m2 log => waitLoop_cancelled polls m2 n log hcancel⟩
  · unfold waitForShardRegistryReload
    rw [if_neg hrole, waitLoop_continue_many polls n (m + 1) 0 []
      (fun j _ hj => hcont j (by omega)), Nat.zero_add, waitLoop_cancelled polls m n _ hcancel,
      List.nil_append, List.range_eq_range']
  · cases hs : (polls n).globalInShutdown
    · simp only [Poll.cancelled, hs, Bool.false_or, Bool.not_eq_true'] at hcancel
      simpa using hcancel
    · rfl
  · rw [loadAttempts_retries]
    simp

/-- C7, at a concrete input: the shutdown flag is set during the first retry
sleep. -/
theorem waitForShardRegistryReload_cancelled_witness :
    ClusterRole.None ≠ ClusterRole.ConfigServer ∧
    (waitForShardRegistryReload ClusterRole.None
        (fun i => if i = 0 then
          ⟨false, Status.OK, ⟨ErrorCodes.HostUnreachable, "no host"⟩, false⟩
        else ⟨true, Status.OK, Status.OK, true⟩) 5 =
      some (if ((fun i => if i = 0 then
              (⟨false, Status.OK, ⟨ErrorCodes.HostUnreachable, "no host"⟩, false⟩ : Poll)
            else ⟨true, Status.OK, Status.OK, true⟩) 1).globalInShutdown
            then shutdownInProgress
            else ((fun i => if i = 0 then
              (⟨false, Status.OK, ⟨ErrorCodes.HostUnreachable, "no host"⟩, false⟩ : Poll)
            else ⟨true, Status.OK, Status.OK, true⟩) 1).checkForInterrupt,
        (List.range 1).flatMap (fun j => ((fun i => if i = 0 then
              (⟨false, Status.OK, ⟨ErrorCodes.HostUnreachable, "no host"⟩, false⟩ : Poll)
            else ⟨true, Status.OK, Status.OK, true⟩) j).retryEvents)) ∧
    (if ((fun i => if i = 0 then
              (⟨false, Status.OK, ⟨ErrorCodes.HostUnreachable, "no host"⟩, false⟩ : Poll)
            else ⟨true, Status.OK, Status.OK, true⟩) 1).globalInShutdown
      then shutdownInProgress
      else ((fun i => if i = 0 then
              (⟨false, Status.OK, ⟨ErrorCodes.HostUnreachable, "no host"⟩, false⟩ : Poll)
            else ⟨true, Status.OK, Status.OK, true⟩) 1).checkForInterrupt).isOK = false ∧
    loadAttempts ((List.range 1).flatMap (fun j => ((fun i => if i = 0 then
              (⟨false, Status.OK, ⟨ErrorCodes.HostUnreachable, "no host"⟩, false⟩ : Poll)
            else ⟨true, Status.OK, Status.OK, true⟩) j).retryEvents)) = 1 ∧
    ∀ (m : Nat) (log : List WaitEvent),
      waitLoop (fun i => if i = 0 then
              (⟨false, Status.OK, ⟨ErrorCodes.HostUnreachable, "no host"⟩, false⟩ : Poll)
            else ⟨true, Status.OK, Status.OK, true⟩) (m + 1) 1 log =
        some (if ((fun i => if i = 0 then
              (⟨false, Status.OK, ⟨ErrorCodes.HostUnreachable, "no host"⟩, false⟩ : Poll)
            else ⟨true, Status.OK, Status.OK, true⟩) 1).globalInShutdown
              then shutdownInProgress
              else ((fun i => if i = 0 then
              (⟨false, Status.OK, ⟨ErrorCodes.HostUnreachable, "no host"⟩, false⟩ : Poll)
            else ⟨true, Status.OK, Status.OK, true⟩) 1).checkForInterrupt, log)) :=
  ⟨by decide, waitForShardRegistryReload_cancelled 1 5 ClusterRole.None _ (by decide)
    (by decide) (by intro j hj; have : j = 0 := by omega
                    subst this; rfl) rfl⟩

/-- C7, the claim as stated fails: when the operation is killed during the
first retry sleep, the next interrupt check hands back Interrupted and the
function returns that status, not the ShutdownInProgress error; no further load
is attempted. -/
theorem waitForShardRegistryReload_interrupted_mid_sleep :
    waitForShardRegistryReload ClusterRole.None
        (fun i => if i = 0 then
          ⟨false, Status.OK, ⟨ErrorCodes.HostUnreachable, "no host"⟩, false⟩
        else ⟨false, ⟨ErrorCodes.Interrupted, "operation was interrupted"⟩, Status.OK, true⟩)
        2 =
      some (⟨ErrorCodes.Interrupted, "operation was interrupted"⟩,
        [WaitEvent.loadClusterId, WaitEvent.warning ⟨ErrorCodes.HostUnreachable, "no host"⟩,
          WaitEvent.sleepFor 2]) ∧
    (⟨ErrorCodes.Interrupted, "operation was interrupted"⟩ : Status) ≠ shutdownInProgress ∧
    ErrorCodes.Interrupted ≠ ErrorCodes.ShutdownInProgress := by
  decide

/-! ## The distributed-lock process id -/

theorem digitChar_facts (d : Nat) (hd : d < 10) :
    (Nat.digitChar d).toNat - 48 = d ∧ Nat.digitChar d ≠ ':' ∧ Nat.digitChar d ≠ '-' := by
  interval_cases d <;> decide

theorem digitsValue_snoc (pre : List Char) (c : Char) :
    digitsValue (pre ++ [c]) = 10 * digitsValue pre + (c.toNat - 48) := by
  simp [digitsValue, List.foldl_append]

/-- What `Nat.toDigitsCore 10` puts in front of its accumulator: a non-empty run
of decimal digit characters that denotes the number. -/
theorem toDigitsCore_spec :
    ∀ (fuel n : Nat) (ds : List Char), n < fuel →
      ∃ pre : List Char, Nat.toDigitsCore 10 fuel n ds = pre ++ ds ∧ pre ≠ [] ∧
        (∀ c ∈ pre, ∃ d, d < 10 ∧ c = Nat.digitChar d) ∧ digitsValue pre = n := by
  intro fuel
  induction fuel with
  | zero => intro n ds h; omega
  | succ f ih =>
    intro n ds h
    by_cases hq : n / 10 = 0
    · refine ⟨[Nat.digitChar (n % 10)], ?_, by simp, ?_, ?_⟩
      · simp [Nat.toDigitsCore, hq]
      · intro c hc
        simp only [List.mem_singleton] at hc
        exact ⟨n % 10, Nat.mod_lt _ (by decide), hc⟩
      · have h1 := (digitChar_facts (n % 10) (Nat.mod_lt _ (by decide))).1
        simp only [digitsValue, List.foldl_cons, List.foldl_nil, h1]
        omega
    · obtain ⟨pre, h1, -, h3, h4⟩ := ih (n / 10) (Nat.digitChar (n % 10) :: ds) (by omega)
      refine ⟨pre ++ [Nat.digitChar (n % 10)], ?_, by simp, ?_, ?_⟩
      · simp [Nat.toDigitsCore, hq, h1]
      · intro c hc
        rcases List.mem_append.1 hc with hc | hc
        · exact h3 c hc
        · simp only [List.mem_singleton] at hc
          exact ⟨n % 10, Nat.mod_lt _ (by decide), hc⟩
      · rw [digitsValue_snoc, h4, (digitChar_facts (n % 10) (Nat.mod_lt _ (by decide))).1]
        omega

theorem repr_data_spec (n : Nat) :
    (Nat.repr n).data ≠ [] ∧
      (∀ c ∈ (Nat.repr n).data, ∃ d, d < 10 ∧ c = Nat.digitChar d) ∧
      digitsValue (Nat.repr n).data = n := by
  obtain ⟨pre, h1, h2, h3, h4⟩ := toDigitsCore_spec (n + 1) n [] (Nat.lt_succ_self n)
  have e : (Nat.repr n).data = pre := by
    simp [Nat.repr, Nat.toDigits, h1, List.asString]
  rw [e]
  exact ⟨h2, h3, h4⟩

theorem decimal_data (x : Int) :
    (decimal x).data =
      if x < 0 then '-' :: (Nat.repr (-x).toNat).data else (Nat.repr x.toNat).data := by
  unfold decimal
  split
  · rw [String.data_append]; rfl
  · rfl

/-- The decimal text of an integer contains no colon. -/
theorem decimal_no_colon (x : Int) : ':' ∉ (decimal x).data := by
  have key : ∀ n : Nat, ':' ∉ (Nat.repr n).data := by
    intro n hmem
    obtain ⟨d, hd, hc⟩ := (repr_data_spec n).2.1 _ hmem
    exact (digitChar_facts d hd).2.1 hc.symm
  rw [decimal_data]
  split
  · intro hmem
    rcases List.mem_cons.1 hmem with h | h
    · exact absurd h (by decide)
    · exact key _ h
  · exact key _

/-- Two integers with the same decimal text are equal. -/
theorem decimal_injective (x y : Int) (h : decimal x = decimal y) : x = y := by
  have hd : (decimal x).data = (decimal y).data := by rw [h]
  have hne : ∀ n : Nat, ∀ l : List Char, (Nat.repr n).data ≠ '-' :: l := by
    intro n l e
    obtain ⟨h1, h2, -⟩ := repr_data_spec n
    obtain ⟨d, hd, hc⟩ := h2 '-' (by rw [e]; exact List.mem_cons_self _ _)
    exact (digitChar_facts d hd).2.2 hc.symm
  have hval : ∀ n m : Nat, (Nat.repr n).data = (Nat.repr m).data → n = m := by
    intro n m e
    have := congrArg digitsValue e
    rwa [(repr_data_spec n).2.2, (repr_data_spec m).2.2] at this
  rw [decimal_data, decimal_data] at hd
  by_cases hx : x < 0 <;> by_cases hy : y < 0
  · rw [if_pos hx, if_pos hy] at hd
    have := hval _ _ (List.cons.inj hd).2
    omega
  · rw [if_pos hx, if_neg hy] at hd
    exact absurd hd.symm (hne _ _)
  · rw [if_neg hx, if_pos hy] at hd
    exact absurd hd (hne _ _)
  · rw [if_neg hx, if_neg hy] at hd
    have := hval _ _ hd
    omega

/-- Two texts `a:b` and `c:d` whose first parts hold no colon are equal only if
both parts are. -/
theorem colon_split :
    ∀ (a c b d : List Char), ':' ∉ a → ':' ∉ c → a ++ ':' :: b = c ++ ':' :: d →
      a = c ∧ b = d := by
  intro a
  induction a with
  | nil =>
    intro c b d _ hc h
    cases c with
    | nil => exact ⟨rfl, (List.cons.inj h).2⟩
    | cons y ys =>
      simp only [List.nil_append, List.cons_append, List.cons.injEq] at h
      exact absurd (List.mem_cons.2 (Or.inl h.1)) hc
  | cons x xs ih =>
    intro c b d ha hc h
    cases c with
    | nil =>
      simp only [List.nil_append, List.cons_append, List.cons.injEq] at h
      exact absurd (List.mem_cons.2 (Or.inl h.1.symm)) ha
    | cons y ys =>
      simp only [List.cons_append, List.cons.injEq] at h
      obtain ⟨e1, e2⟩ := ih ys b d (fun hm => ha (List.mem_cons_of_mem _ hm))
        (fun hm => hc (List.mem_cons_of_mem _ hm)) h.2
      exact ⟨by rw [h.1, e1], e2⟩

theorem generateDistLockProcessId_data (hostAndPortToString : String → Int → String)
    (hostName : String) (port nowMillis nextInt64 : Int) :
    (generateDistLockProcessId hostAndPortToString hostName port nowMillis nextInt64).data =
      (hostAndPortToString hostName port).data ++
        (':' :: ((decimal (durationCountSeconds nowMillis)).data ++
          ':' :: (decimal nextInt64).data)) := by
  simp [generateDistLockProcessId, String.data_append]

/-- C9. For every host, port and pair of clock readings, two calls whose random
draws differ return distinct strings; each is `host:port`, the epoch seconds and
the draw in decimal joined by colons, so both begin with the same `host:port`
text. -/
theorem generateDistLockProcessId_distinct (hostAndPortToString : String → Int → String)
    (hostName : String) (port now1 now2 draw1 draw2 : Int) (hdraw : draw1 ≠ draw2) :
    generateDistLockProcessId hostAndPortToString hostName port now1 draw1 ≠
      generateDistLockProcessId hostAndPortToString hostName port now2 draw2 ∧
    generateDistLockProcessId hostAndPortToString hostName port now1 draw1 =
      hostAndPortToString hostName port ++ ":" ++ decimal (durationCountSeconds now1)
        ++ ":" ++ decimal draw1 ∧
    generateDistLockProcessId hostAndPortToString hostName port now2 draw2 =
      hostAndPortToString hostName port ++ ":" ++ decimal (durationCountSeconds now2)
        ++ ":" ++ decimal draw2 ∧
    List.IsPrefix (hostAndPortToString hostName port ++ ":").data
      (generateDistLockProcessId hostAndPortToString hostName port now1 draw1).data ∧
    List.IsPrefix (hostAndPortToString hostName port ++ ":").data
      (generateDistLockProcessId hostAndPortToString hostName port now2 draw2).data := by
  refine ⟨?_, rfl, rfl, ?_, ?_⟩
  · intro h
    have hd := congrArg String.data h
    rw [generateDistLockProcessId_data, generateDistLockProcessId_data] at hd
    have h2 := List.cons.inj (List.append_cancel_left hd)
    have h3 := colon_split _ _ _ _ (decimal_no_colon _) (decimal_no_colon _) h2.2
    exact hdraw (decimal_injective _ _ (String.ext h3.2))
  · rw [generateDistLockProcessId_data]
    exact ⟨(decimal (durationCountSeconds now1)).data ++ ':' :: (decimal draw1).data,
      by simp [String.data_append]⟩
  · rw [generateDistLockProcessId_data]
    exact ⟨(decimal (durationCountSeconds now2)).data ++ ':' :: (decimal draw2).data,
      by simp [String.data_append]⟩

/-- C9, at a concrete input: the same host, port and clock reading, two draws. -/
theorem generateDistLockProcessId_distinct_witness :
    (5 : Int) ≠ -7 ∧
    generateDistLockProcessId (fun h p => h ++ ":" ++ decimal p) "db1" 27017 1500000999 5 =
      "db1:27017:1500000:5" ∧
    generateDistLockProcessId (fun h p => h ++ ":" ++ decimal p) "db1" 27017 1500000999 (-7) =
      "db1:27017:1500000:-7" ∧
    (generateDistLockProcessId (fun h p => h ++ ":" ++ decimal p) "db1" 27017 1500000999 5 ≠
      generateDistLockProcessId (fun h p => h ++ ":" ++ decimal p) "db1" 27017 1500000999
        (-7) ∧
    generateDistLockProcessId (fun h p => h ++ ":" ++ decimal p) "db1" 27017 1500000999 5 =
      (fun h p => h ++ ":" ++ decimal p) "db1" 27017 ++ ":" ++
        decimal (durationCountSeconds 1500000999) ++ ":" ++ decimal 5 ∧
    generateDistLockProcessId (fun h p => h ++ ":" ++ decimal p) "db1" 27017 1500000999 (-7) =
      (fun h p => h ++ ":" ++ decimal p) "db1" 27017 ++ ":" ++
        decimal (durationCountSeconds 1500000999) ++ ":" ++ decimal (-7) ∧
    List.IsPrefix ((fun h p => h ++ ":" ++ decimal p) "db1" 27017 ++ ":").data
      (generateDistLockProcessId (fun h p => h ++ ":" ++ decimal p) "db1" 27017 1500000999
        5).data ∧
    List.IsPrefix ((fun h p => h ++ ":" ++ decimal p) "db1" 27017 ++ ":").data
      (generateDistLockProcessId (fun h p => h ++ ":" ++ decimal p) "db1" 27017 1500000999
        (-7)).data) :=
  ⟨by decide, by decide, by decide,
    generateDistLockProcessId_distinct _ "db1" 27017 1500000999 1500000999 5 (-7) (by decide)⟩

end mongo
